import Mathlib

/-!
Verification of the logic-mcp repository: a shallow embedding in Lean 4 of
the SWI-Prolog session engine (`internal/prolog/engine.go`), the tool
dispatcher (`internal/tools/tools.go`), and the MCP protocol server
(`internal/mcp/server.go`), together with theorems settling the spec's
claims about them.

Strings are modelled as Lean `String`s; the Go standard-library string
helpers used by the code (`strings.TrimSpace`, `strings.HasSuffix`,
`strings.HasPrefix`, `strings.Contains`, `strings.Split`,
`strings.TrimSuffix`, `strings.Join`) are embedded below as executable
functions over the underlying character lists.

The external SWI-Prolog process, the filesystem and the wall clock are
modelled as an explicit environment (`ExecEnv`): each query invocation
receives the generated temp-file name, the formatted elapsed duration, and
the event describing how the external invocation went (write failure,
abnormal completion with an error, or normal completion with captured
combined output).
-/

/-- Go `unicode.IsSpace` on the characters `strings.TrimSpace` trims. -/
def isGoSpace (c : Char) : Bool :=
  c == ' ' || c == '\t' || c == '\n' || c == '\x0b' || c == '\x0c' || c == '\r' ||
  c == '\u0085' || c == '\u00A0'

/-- Go `strings.TrimSpace`. -/
def trimSpace (s : String) : String :=
  ⟨((s.data.dropWhile isGoSpace).reverse.dropWhile isGoSpace).reverse⟩

/-- Go `strings.HasSuffix`. -/
def hasSuffix (s t : String) : Bool :=
  decide (t.data <:+ s.data)

/-- Go `strings.HasPrefix`. -/
def strStartsWith (s t : String) : Bool :=
  decide (t.data <+: s.data)

/-- Go `strings.Contains`. -/
def containsSubstr (s t : String) : Bool :=
  decide (t.data <:+: s.data)

/-- Go `strings.TrimSuffix`: drops one trailing occurrence when present. -/
def trimSuffix (s t : String) : String :=
  if hasSuffix s t then ⟨s.data.take (s.data.length - t.data.length)⟩ else s

/-- Splitting a character list at every occurrence of a separator character;
`strings.Split s "\n"` is `splitOnChar '\n' s.data` (on the empty string both
yield the single empty piece). -/
def splitOnChar (sep : Char) : List Char → List (List Char)
  | [] => [[]]
  | c :: rest =>
    let r := splitOnChar sep rest
    if c == sep then [] :: r
    else
      match r with
      | [] => [[c]]
      | h :: t => (c :: h) :: t

/-- Go `strings.Split s "\n")`, the only use of `strings.Split` in the code. -/
def splitLines (s : String) : List String :=
  (splitOnChar '\n' s.data).map fun l => ⟨l⟩

/-- Go `fmt` `%t` formatting of a boolean. -/
def boolStr (b : Bool) : String :=
  if b then "true" else "false"

/-- `QueryResult` from `internal/prolog/engine.go` (the `Solutions` field is
never assigned anywhere in the code and is omitted; `ExecutionTime` is the
`%s`-formatted `time.Duration`, supplied by the environment since wall-clock
time is external). -/
structure QueryResult where
  Success : Bool
  Output : String := ""
  Error : String := ""
  ExecutionTime : String := ""
deriving Repr, DecidableEq

/-- `Engine` from `internal/prolog/engine.go`: temp-file bookkeeping list,
the closed flag and the loaded facts (the mutex serializing access is not
part of the sequential state). -/
structure Engine where
  tempFiles : List String
  closed : Bool
  facts : List String
deriving Repr, DecidableEq

/-- How one external SWI-Prolog invocation went, as observed by
`executeQueryBatch`: the temp-file write failed, `cmd.CombinedOutput`
returned an error (could not start, non-zero exit, killed by cancellation),
or the process completed normally with the captured combined output. -/
inductive ExecEvent where
  | writeFileError (msg : String)
  | runError (output : String) (msg : String)
  | runOk (output : String)
deriving Repr, DecidableEq

/-- Environment of one query invocation: the unique temp-file path produced
by `createTempFile` (built from `os.TempDir` and `time.Now().UnixNano()`),
the formatted `time.Since(startTime)` duration, and the invocation event. -/
structure ExecEnv where
  tempName : String
  elapsed : String
  ev : ExecEvent
deriving Repr, DecidableEq

/-- `NewEngine`: fails when the `swipl` binary cannot be found, otherwise
returns a fresh open engine with an empty facts list. -/
def NewEngine (swiplFound : Bool) : Except String Engine :=
  if swiplFound then .ok ⟨[], false, []⟩
  else .error "SWI-Prolog not found"

/-- `Engine.createTempFile`: records the (environment-supplied) unique path
in `e.tempFiles` and returns it; the Go version never returns an error. -/
def Engine.createTempFile (e : Engine) (name : String) : String × Engine :=
  (name, { e with tempFiles := e.tempFiles ++ [name] })

/-- The driver clause `executeQueryBatch` synthesizes around the user goal
(`testGoal` in the Go code). -/
def testGoal (query : String) : String :=
  "\nmain :-\n    (   (" ++ trimSuffix query "." ++ ") ->\n        write(\x27SUCCESS: true\x27)\n    ;   write(\x27SUCCESS: false\x27)\n    ),\n    nl,\n    halt.\n"

/-- The program text `executeQueryBatch` writes to the temp file: the loaded
facts joined by newlines, then the synthesized driver clause. -/
def Engine.queryFileContent (e : Engine) (query : String) : String :=
  let content := String.intercalate "\n" e.facts
  let content := if content != "" then content ++ "\n" else content
  content ++ testGoal query

/-- `Engine.executeQueryBatch`: creates the temp file, writes the program,
runs `swipl -q -g main -t halt` on it and classifies the result.  A write
failure is a Go error; an abnormal completion is a non-error result with
`Success=false` and the invocation error in `Error`; a normal completion
sets `Success` by searching the combined output for `SUCCESS: true` and
retains the raw output verbatim. -/
def Engine.executeQueryBatch (e : Engine) (query : String) (env : ExecEnv) :
    Except String QueryResult × Engine :=
  let p := e.createTempFile env.tempName
  let e := p.2
  let _content := e.queryFileContent query
  match env.ev with
  | .writeFileError msg => (.error ("failed to write query file: " ++ msg), e)
  | .runError output msg =>
      (.ok { Success := false, Output := output, Error := "execution failed: " ++ msg }, e)
  | .runOk output =>
      (.ok { Success := containsSubstr output "SUCCESS: true", Output := output }, e)

/-- `Engine.Query`: fails hard when the engine is closed; returns a
non-error `Success=false` result on input that trims to empty; otherwise
normalizes the terminator (only when missing: the trimmed text gets `.`
appended, an already-terminated query is passed through untrimmed) and runs
`executeQueryBatch`, converting its Go error, if any, into a non-error
`Success=false` result. -/
def Engine.Query (e : Engine) (query : String) (env : ExecEnv) :
    Except String QueryResult × Engine :=
  if e.closed then (.error "engine is closed", e)
  else if trimSpace query == "" then
    (.ok { Success := false, Error := "Empty query provided", ExecutionTime := env.elapsed }, e)
  else
    let query := if !(hasSuffix (trimSpace query) ".") then trimSpace query ++ "." else query
    match e.executeQueryBatch query env with
    | (.error msg, e) =>
        (.ok { Success := false, Error := msg, ExecutionTime := env.elapsed }, e)
    | (.ok result, e) =>
        (.ok { result with ExecutionTime := env.elapsed }, e)

/-- The per-line body of the `LoadFacts` loop: trim, drop blank lines and
`%`-comment lines, append the terminator when missing, append to the store. -/
def loadFactsStep (acc : List String) (line : String) : List String :=
  let line := trimSpace line
  if line != "" && !(strStartsWith line "%") then
    acc ++ [if !(hasSuffix line ".") then line ++ "." else line]
  else acc

/-- `Engine.LoadFacts`: fails hard when the engine is closed; otherwise
splits the text into lines and appends each normalized non-blank,
non-comment line to `e.facts`, never failing on malformed Prolog. -/
def Engine.LoadFacts (e : Engine) (facts : String) : Except String Unit × Engine :=
  if e.closed then (.error "engine is closed", e)
  else
    let lines := splitLines facts
    (.ok (), { e with facts := lines.foldl loadFactsStep e.facts })

/-- `Engine.validateBalanced`'s loop over the runes of the string, carrying
the nesting count: an unmatched closing delimiter errors as soon as the
count would go negative, an unmatched opening delimiter errors at the end. -/
def validateBalancedAux (openC closeC : Char) : List Char → Int → Except String Unit
  | [], count =>
      if count != 0 then .error ("unmatched opening " ++ String.singleton openC) else .ok ()
  | ch :: rest, count =>
      if ch == openC then validateBalancedAux openC closeC rest (count + 1)
      else if ch == closeC then
        if count - 1 < 0 then .error ("unmatched closing " ++ String.singleton closeC)
        else validateBalancedAux openC closeC rest (count - 1)
      else validateBalancedAux openC closeC rest count

/-- `Engine.validateBalanced`: checks one delimiter pair over the query. -/
def Engine.validateBalanced (_e : Engine) (s : String) (openC closeC : Char) :
    Except String Unit :=
  validateBalancedAux openC closeC s.data 0

/-- `Engine.ValidateQuery`: trims, then checks non-emptiness, the trailing
terminator, balanced parentheses and balanced brackets, in that order.  Note
that the Go method reads no engine state at all (in particular it never
checks the `closed` flag). -/
def Engine.ValidateQuery (e : Engine) (query : String) : Except String Unit :=
  let query := trimSpace query
  if query == "" then .error "empty query"
  else if !(hasSuffix query ".") then .error "query must end with a period"
  else
    match e.validateBalanced query '(' ')' with
    | .error msg => .error ("unbalanced parentheses: " ++ msg)
    | .ok _ =>
      match e.validateBalanced query '[' ']' with
      | .error msg => .error ("unbalanced brackets: " ++ msg)
      | .ok _ => .ok ()

/-- `Engine.ClearKnowledgeBase`: fails hard when closed, otherwise resets
the facts list to empty. -/
def Engine.ClearKnowledgeBase (e : Engine) : Except String Unit × Engine :=
  if e.closed then (.error "engine is closed", e)
  else (.ok (), { e with facts := [] })

/-- `Engine.Close`: a no-op on an already-closed engine; otherwise removes
the recorded temp files, clears the bookkeeping list and sets the closed
flag.  Always succeeds. -/
def Engine.Close (e : Engine) : Except String Unit × Engine :=
  if e.closed then (.ok (), e)
  else (.ok (), { e with tempFiles := [], closed := true })

/-- `Engine.GetLoadedFacts`: returns a copy of the facts list (no closed
check in the Go code). -/
def Engine.GetLoadedFacts (e : Engine) : List String :=
  e.facts

example : NewEngine true = .ok ⟨[], false, []⟩ := rfl

example :
    (Engine.mk [] false []).ValidateQuery "member(X, [1,2,3])." = .ok () := rfl

example :
    (Engine.mk [] false []).ValidateQuery "foo(1,2." =
      .error "unbalanced parentheses: unmatched opening (" := rfl

/-- The dynamically-typed JSON values (Go `interface{}` after
`encoding/json` decoding): null, booleans, numbers, strings, arrays and
objects (decoded to `map[string]interface{}`, embedded as association
lists).  An absent optional field decodes to null. -/
inductive JSONValue where
  | null : JSONValue
  | bool (b : Bool) : JSONValue
  | num (n : Int) : JSONValue
  | str (s : String) : JSONValue
  | arr (items : List JSONValue) : JSONValue
  | obj (fields : List (String × JSONValue)) : JSONValue

/-- Argument map of a tool call (Go `map[string]interface{}`). -/
abbrev ArgMap := List (String × JSONValue)

/-- Go map indexing `args[key]` (absent key yields the nil interface,
modelled as `none`). -/
def lookupArg (args : ArgMap) (key : String) : Option JSONValue :=
  match args.find? (fun p => p.1 == key) with
  | some p => some p.2
  | none => none

/-- Go type assertion `v.(string)`. -/
def JSONValue.asString : JSONValue → Option String
  | .str s => some s
  | _ => none

/-- Go type assertion `v.([]interface{})`. -/
def JSONValue.asArr : JSONValue → Option (List JSONValue)
  | .arr items => some items
  | _ => none

/-- The two-step Go idiom `v, ok := args[key].(string)`: `some` exactly when
the key is present and its value is a string. -/
def getStringArg (args : ArgMap) (key : String) : Option String :=
  (lookupArg args key).bind JSONValue.asString

/-- `ToolResult` from `internal/tools/tools.go`: a list of content maps and
the error flag.  Every content entry the code builds is a
`{"type": "text", "text": ...}` map. -/
structure ToolResult where
  Content : List (List (String × JSONValue))
  IsError : Bool := false

/-- The `{"type": "text", "text": t}` content map every handler builds. -/
def textContent (t : String) : List (String × JSONValue) :=
  [("type", .str "text"), ("text", .str t)]

/-- `LogicTools.handleQuery` (`prolog_query`): requires a string `query`
argument, else an error-flagged result; a hard engine error (closed engine)
also becomes an error-flagged result; otherwise renders the query outcome
into a text summary. -/
def LogicTools.handleQuery (e : Engine) (args : ArgMap) (env : ExecEnv) :
    Except String ToolResult × Engine :=
  match getStringArg args "query" with
  | none =>
      (.ok { Content := [textContent "Error: \x27query\x27 parameter must be a string"],
             IsError := true }, e)
  | some query =>
    match e.Query query env with
    | (.error msg, e) =>
        (.ok { Content := [textContent ("Failed to execute query: " ++ msg)],
               IsError := true }, e)
    | (.ok result, e) =>
        let responseText :=
          "Query: " ++ query ++ "\n" ++
          "Result: " ++ boolStr result.Success ++ "\n" ++
          "Execution Time: " ++ result.ExecutionTime ++ "\n" ++
          (if result.Error != "" then "Error: " ++ result.Error ++ "\n" else "") ++
          (if result.Output != "" then "Output: " ++ result.Output ++ "\n" else "")
        (.ok { Content := [textContent responseText] }, e)

/-- `LogicTools.handleLoadFacts` (`prolog_load_facts`). -/
def LogicTools.handleLoadFacts (e : Engine) (args : ArgMap) :
    Except String ToolResult × Engine :=
  match getStringArg args "facts" with
  | none =>
      (.ok { Content := [textContent "Error: \x27facts\x27 parameter must be a string"],
             IsError := true }, e)
  | some facts =>
    match e.LoadFacts facts with
    | (.error msg, e) =>
        (.ok { Content := [textContent ("Failed to load facts: " ++ msg)],
               IsError := true }, e)
    | (.ok _, e) =>
        (.ok { Content := [textContent "Facts loaded successfully!"] }, e)

/-- `LogicTools.handleValidateSyntax` (`prolog_validate_syntax`): pure, the
engine state is never changed. -/
def LogicTools.handleValidateSyntaxCall (e : Engine) (args : ArgMap) :
    Except String ToolResult × Engine :=
  match getStringArg args "code" with
  | none =>
      (.ok { Content := [textContent "Error: \x27code\x27 parameter must be a string"],
             IsError := true }, e)
  | some code =>
    match e.ValidateQuery code with
    | .error msg =>
        (.ok { Content := [textContent ("Syntax validation failed: " ++ msg)],
               IsError := true }, e)
    | .ok _ =>
        (.ok { Content := [textContent "Syntax is valid!"] }, e)

/-- `LogicTools.handleClearKB` (`prolog_clear_kb`). -/
def LogicTools.handleClearKB (e : Engine) : Except String ToolResult × Engine :=
  match e.ClearKnowledgeBase with
  | (.error msg, e) =>
      (.ok { Content := [textContent ("Failed to clear knowledge base: " ++ msg)],
             IsError := true }, e)
  | (.ok _, e) =>
      (.ok { Content := [textContent "Knowledge base cleared successfully!"] }, e)

/-- The query loop of `handleSolveProblem`: each query in turn is type
checked, executed with its own invocation environment, and reported into the
accumulated response text; one failing query never aborts the rest. -/
def runQueriesLoop (envs : Nat → ExecEnv) :
    List JSONValue → Nat → String → Engine → String × Engine
  | [], _, acc, e => (acc, e)
  | q :: rest, i, acc, e =>
    match q.asString with
    | none =>
        runQueriesLoop envs rest (i + 1)
          (acc ++ "❌ Query " ++ toString (i + 1) ++ ": Invalid query type (must be string)\n") e
    | some query =>
      match e.Query query (envs i) with
      | (.error msg, e) =>
          runQueriesLoop envs rest (i + 1)
            (acc ++ "❌ Query " ++ toString (i + 1) ++ " (" ++ query ++ "): Failed - " ++ msg ++ "\n") e
      | (.ok result, e) =>
          let status := if result.Success then "✅ Success" else "❌ Failed"
          let acc := acc ++ status ++ " Query " ++ toString (i + 1) ++ ": " ++ query ++ "\n"
          let acc := acc ++ (if result.Error != "" then "   Error: " ++ result.Error ++ "\n" else "")
          let acc := acc ++ (if result.Output != "" then "   Output: " ++ result.Output ++ "\n" else "")
          runQueriesLoop envs rest (i + 1) acc e

/-- `LogicTools.handleSolveProblem` (`prolog_solve_problem`): validates the
three arguments, clears the knowledge base (a clear failure is only a
warning), loads the facts and rules, then runs every query independently. -/
def LogicTools.handleSolveProblem (e : Engine) (args : ArgMap) (envs : Nat → ExecEnv) :
    Except String ToolResult × Engine :=
  match getStringArg args "problem_description" with
  | none =>
      (.ok { Content := [textContent "Error: \x27problem_description\x27 parameter must be a string"],
             IsError := true }, e)
  | some description =>
  match getStringArg args "facts_and_rules" with
  | none =>
      (.ok { Content := [textContent "Error: \x27facts_and_rules\x27 parameter must be a string"],
             IsError := true }, e)
  | some factsAndRules =>
  match (lookupArg args "queries").bind JSONValue.asArr with
  | none =>
      (.ok { Content := [textContent "Error: \x27queries\x27 parameter must be an array"],
             IsError := true }, e)
  | some queries =>
    let responseText := "🧩 Solving Problem: " ++ description ++ "\n\n"
    let p := e.ClearKnowledgeBase
    let responseText := responseText ++
      (match p.1 with
       | .error msg => "⚠️ Warning: Failed to clear knowledge base: " ++ msg ++ "\n"
       | .ok _ => "")
    let responseText := responseText ++ "📚 Loading facts and rules...\n"
    match p.2.LoadFacts factsAndRules with
    | (.error msg, e) =>
        (.ok { Content := [textContent ("❌ Failed to load facts and rules: " ++ msg ++ "\n")],
               IsError := true }, e)
    | (.ok _, e) =>
      let responseText := responseText ++ "✅ Facts and rules loaded successfully!\n\n"
      let responseText := responseText ++ "🔍 Executing queries:\n"
      let r := runQueriesLoop envs queries 0 responseText e
      (.ok { Content := [textContent r.1] }, r.2)

/-- `LogicTools.handleExplainSolution` (`prolog_explain_solution`): requires
a string `query`; the optional `facts` argument defaults to the empty string
(`facts, _ := args["facts"].(string)`); load failures and query failures are
reported inside the text, the result is never error-flagged once the `query`
argument is a string. -/
def LogicTools.handleExplainSolution (e : Engine) (args : ArgMap) (env : ExecEnv) :
    Except String ToolResult × Engine :=
  match getStringArg args "query" with
  | none =>
      (.ok { Content := [textContent "Error: \x27query\x27 parameter must be a string"],
             IsError := true }, e)
  | some query =>
    let facts := (getStringArg args "facts").getD ""
    let responseText := "🔬 Explaining Prolog Solution: " ++ query ++ "\n\n"
    let p :=
      if facts != "" then
        match e.LoadFacts facts with
        | (.error msg, e) =>
            (responseText ++ "⚠️ Warning: Failed to load provided facts: " ++ msg ++ "\n", e)
        | (.ok _, e) =>
            (responseText ++ "📚 Loaded provided facts and rules\n\n", e)
      else (responseText, e)
    let responseText := p.1
    match p.2.Query query env with
    | (.error msg, e) =>
        (.ok { Content := [textContent (responseText ++ "❌ Failed to execute query: " ++ msg ++ "\n")] }, e)
    | (.ok result, e) =>
        let t := responseText ++ "📝 Query Execution:\n" ++
          "   Query: " ++ query ++ "\n" ++
          "   Result: " ++ boolStr result.Success ++ "\n" ++
          "   Execution Time: " ++ result.ExecutionTime ++ "\n" ++
          (if result.Output != "" then "   Output: " ++ result.Output ++ "\n" else "") ++
          (if result.Error != "" then "   Error: " ++ result.Error ++ "\n" else "") ++
          "\n💡 Explanation:\n" ++
          (if result.Success then
            "The query succeeded, meaning Prolog was able to prove the goal using the loaded facts and rules through logical inference.\n"
          else
            "The query failed, meaning Prolog could not prove the goal with the available facts and rules. This could be because:\n- The goal is not derivable from the current knowledge base\n- Required facts or rules are missing\n- There\x27s a logical inconsistency\n")
        (.ok { Content := [textContent t] }, e)

/-- `LogicTools.CallTool`: routes a tool name to its handler; an unknown
name is the only dispatch-level (Go `error`) failure. -/
def LogicTools.CallTool (e : Engine) (name : String) (args : ArgMap) (envs : Nat → ExecEnv) :
    Except String ToolResult × Engine :=
  match name with
  | "prolog_query" => LogicTools.handleQuery e args (envs 0)
  | "prolog_load_facts" => LogicTools.handleLoadFacts e args
  | "prolog_validate_syntax" => LogicTools.handleValidateSyntaxCall e args
  | "prolog_clear_kb" => LogicTools.handleClearKB e
  | "prolog_solve_problem" => LogicTools.handleSolveProblem e args envs
  | "prolog_explain_solution" => LogicTools.handleExplainSolution e args (envs 0)
  | _ => (.error ("unknown tool: " ++ name), e)

/-- The fixed document behind `prolog://examples/basic`. -/
def getBasicPrologExamples : String :=
  "% Basic Prolog Facts and Rules\n\n% Facts about animals\nanimal(dog).\nanimal(cat).\nanimal(bird).\nanimal(fish).\n\n% Facts about properties\nhas_fur(dog).\nhas_fur(cat).\nhas_feathers(bird).\nhas_scales(fish).\n\n% Rules\nmammal(X) :- animal(X), has_fur(X).\ncan_fly(X) :- animal(X), has_feathers(X).\n\n% Example queries:\n% ?- mammal(dog).     % Should return true\n% ?- mammal(bird).    % Should return false\n% ?- can_fly(bird).   % Should return true\n% ?- mammal(X).       % Should return X = dog; X = cat"

/-- The fixed document behind `prolog://examples/logic-puzzles`. -/
def getLogicPuzzleExamples : String :=
  "% Logic Puzzle: Einstein\x27s Riddle (simplified version)\n\n% Houses numbered 1-3\nhouse(1). house(2). house(3).\n\n% Colors\ncolor(red). color(blue). color(green).\n\n% Pets\npet(dog). pet(cat). pet(bird).\n\n% The puzzle solution predicate\nsolve_puzzle(Houses) :-\n    % Houses = [house(Num1, Color1, Pet1), house(Num2, Color2, Pet2), house(Num3, Color3, Pet3)]\n    Houses = [house(1, C1, P1), house(2, C2, P2), house(3, C3, P3)],\n    \n    % All colors must be different\n    permutation([red, blue, green], [C1, C2, C3]),\n    \n    % All pets must be different  \n    permutation([dog, cat, bird], [P1, P2, P3]),\n    \n    % Constraints\n    member(house(1, red, _), Houses),     % House 1 is red\n    member(house(_, blue, dog), Houses),  % Blue house has a dog\n    member(house(3, _, cat), Houses).     % House 3 has a cat\n\n% Helper predicate\nnext_to(X, Y, List) :-\n    append(_, [X, Y | _], List);\n    append(_, [Y, X | _], List).\n\n% Example query:\n% ?- solve_puzzle(Solution)."

/-- The fixed document behind `prolog://examples/family-tree`. -/
def getFamilyTreeExample : String :=
  "% Family Tree Example\n\n% Basic facts about people\nperson(john).\nperson(mary).\nperson(bob).\nperson(alice).\nperson(charlie).\nperson(diana).\n\n% Parent relationships\nparent(john, bob).\nparent(mary, bob).\nparent(bob, alice).\nparent(bob, charlie).\nparent(alice, diana).\n\n% Gender facts\nmale(john).\nmale(bob).\nmale(charlie).\nfemale(mary).\nfemale(alice).\nfemale(diana).\n\n% Rules for family relationships\nfather(X, Y) :- parent(X, Y), male(X).\nmother(X, Y) :- parent(X, Y), female(X).\n\nchild(X, Y) :- parent(Y, X).\nson(X, Y) :- child(X, Y), male(X).\ndaughter(X, Y) :- child(X, Y), female(X).\n\ngrandparent(X, Z) :- parent(X, Y), parent(Y, Z).\ngrandfather(X, Z) :- grandparent(X, Z), male(X).\ngrandmother(X, Z) :- grandparent(X, Z), female(X).\n\nsibling(X, Y) :- parent(Z, X), parent(Z, Y), X \\= Y.\nbrother(X, Y) :- sibling(X, Y), male(X).\nsister(X, Y) :- sibling(X, Y), female(X).\n\n% Example queries:\n% ?- father(john, bob).      % Is John the father of Bob?\n% ?- mother(X, bob).         % Who is Bob\x27s mother?\n% ?- grandparent(john, X).   % Who are John\x27s grandchildren?\n% ?- sibling(alice, charlie). % Are Alice and Charlie siblings?"

/-- `ToolDefinition` from `internal/tools/tools.go`. -/
structure ToolDefinition where
  Name : String
  Description : String
  InputSchema : List (String × JSONValue)

/-- `LogicTools.GetToolDefinitions`: the six fixed tool definitions. -/
def LogicTools.GetToolDefinitions : List ToolDefinition :=
  [{ Name := "prolog_query",
     Description := "Execute a Prolog query and return results. Supports both simple queries and complex logic problems.",
     InputSchema :=
       [("type", .str "object"),
        ("properties", .obj [("query", .obj
          [("type", .str "string"),
           ("description", .str "The Prolog query to execute. Must end with a period. Example: \x27member(X, [1,2,3]).\x27")])]),
        ("required", .arr [.str "query"])] },
   { Name := "prolog_load_facts",
     Description := "Load Prolog facts and rules into the knowledge base. Use this to define rules and facts before querying.",
     InputSchema :=
       [("type", .str "object"),
        ("properties", .obj [("facts", .obj
          [("type", .str "string"),
           ("description", .str "Prolog facts and rules to load, separated by newlines. Comments start with %. Example: \x27parent(tom, bob).\\nparent(bob, pat).\x27")])]),
        ("required", .arr [.str "facts"])] },
   { Name := "prolog_validate_syntax",
     Description := "Validate Prolog syntax without executing. Use this to check if your Prolog code is syntactically correct.",
     InputSchema :=
       [("type", .str "object"),
        ("properties", .obj [("code", .obj
          [("type", .str "string"),
           ("description", .str "Prolog code to validate syntax for. Can include facts, rules, or queries.")])]),
        ("required", .arr [.str "code"])] },
   { Name := "prolog_clear_kb",
     Description := "Clear the Prolog knowledge base. This removes all dynamic predicates and facts.",
     InputSchema :=
       [("type", .str "object"),
        ("properties", .obj [])] },
   { Name := "prolog_solve_problem",
     Description := "Solve a complex logic problem by loading facts/rules and then executing queries. This is a high-level tool that combines loading facts and querying.",
     InputSchema :=
       [("type", .str "object"),
        ("properties", .obj
          [("problem_description", .obj
            [("type", .str "string"),
             ("description", .str "A description of the logic problem to solve.")]),
           ("facts_and_rules", .obj
            [("type", .str "string"),
             ("description", .str "Prolog facts and rules that define the problem domain.")]),
           ("queries", .obj
            [("type", .str "array"),
             ("items", .obj [("type", .str "string")]),
             ("description", .str "List of queries to execute to solve the problem.")])]),
        ("required", .arr [.str "problem_description", .str "facts_and_rules", .str "queries"])] },
   { Name := "prolog_explain_solution",
     Description := "Explain how a Prolog solution works step by step. This tool provides educational explanations.",
     InputSchema :=
       [("type", .str "object"),
        ("properties", .obj
          [("query", .obj
            [("type", .str "string"),
             ("description", .str "The Prolog query to explain.")]),
           ("facts", .obj
            [("type", .str "string"),
             ("description", .str "Relevant facts and rules (optional).")])]),
        ("required", .arr [.str "query"])] }]

/-- `MCPRequest` from `internal/mcp/server.go`: the generic request
envelope; `Params` is `interface{}` (absent params decode to null). -/
structure MCPRequest where
  JSONRPC : String
  ID : JSONValue
  Method : String
  Params : JSONValue

/-- `MCPError` from `internal/mcp/server.go`; every `Data` value the server
builds is a string. -/
structure MCPError where
  Code : Int
  Message : String
  Data : String

/-- The result payloads the five request handlers produce (Go stores them
in the `interface{}`-typed `Result` field of `MCPResponse`). -/
inductive MCPResult where
  | initResult (value : List (String × JSONValue)) : MCPResult
  | toolsList (tools : List ToolDefinition) : MCPResult
  | toolCall (result : ToolResult) : MCPResult
  | resourcesList (resources : List (List (String × JSONValue))) : MCPResult
  | resourceRead (contents : List (List (String × JSONValue))) : MCPResult

/-- `MCPResponse` from `internal/mcp/server.go`: `Result` and `Error` are
both optional (`omitempty` / nil pointer). -/
structure MCPResponse where
  JSONRPC : String
  ID : JSONValue
  Result : Option MCPResult := none
  Error : Option MCPError := none

/-- `Server` from `internal/mcp/server.go`.  The Go struct also holds a
`tools *LogicTools` built over the same `*prolog.Engine`, so the one engine
is the whole mutable state. -/
structure Server where
  prologEngine : Engine

/-- `Server.handleInitialize`: the fixed capability/serverInfo payload. -/
def Server.handleInitializeRequest (_s : Server) (request : MCPRequest) : MCPResponse :=
  { JSONRPC := "2.0", ID := request.ID,
    Result := some (.initResult
      [("protocolVersion", .str "2024-11-05"),
       ("capabilities", .obj
         [("tools", .obj [("listChanged", .bool true)]),
          ("resources", .obj [("subscribe", .bool true), ("listChanged", .bool true)])]),
       ("serverInfo", .obj
         [("name", .str "logic-mcp"), ("version", .str "1.0.0")])]) }

/-- `Server.handleToolsList`. -/
def Server.handleToolsList (_s : Server) (request : MCPRequest) : MCPResponse :=
  { JSONRPC := "2.0", ID := request.ID,
    Result := some (.toolsList LogicTools.GetToolDefinitions) }

/-- `Server.handleToolsCall`: params must be an object (else
`InvalidParams`), `name` must be a string (else `InvalidParams`); a failed
`arguments` assertion falls back to an empty map; a dispatch error becomes a
`Tool execution error` response, a dispatched result a success response. -/
def Server.handleToolsCall (s : Server) (request : MCPRequest) (envs : Nat → ExecEnv) :
    MCPResponse × Server :=
  match request.Params with
  | .obj params =>
    (match getStringArg params "name" with
     | none =>
         ({ JSONRPC := "2.0", ID := request.ID,
            Error := some ⟨-32602, "Invalid params", "Missing or invalid \x27name\x27 field"⟩ }, s)
     | some toolName =>
       let arguments :=
         match lookupArg params "arguments" with
         | some (.obj a) => a
         | _ => []
       match LogicTools.CallTool s.prologEngine toolName arguments envs with
       | (.error msg, e) =>
           ({ JSONRPC := "2.0", ID := request.ID,
              Error := some ⟨-32603, "Tool execution error", msg⟩ }, { prologEngine := e })
       | (.ok result, e) =>
           ({ JSONRPC := "2.0", ID := request.ID,
              Result := some (.toolCall result) }, { prologEngine := e }))
  | _ =>
      ({ JSONRPC := "2.0", ID := request.ID,
         Error := some ⟨-32602, "Invalid params", "Expected object with \x27name\x27 and \x27arguments\x27"⟩ }, s)

/-- `Server.handleResourcesList`: the three fixed resource descriptors. -/
def Server.handleResourcesList (_s : Server) (request : MCPRequest) : MCPResponse :=
  { JSONRPC := "2.0", ID := request.ID,
    Result := some (.resourcesList
      [[("uri", .str "prolog://examples/basic"),
        ("name", .str "Basic Prolog Examples"),
        ("description", .str "Basic Prolog predicates and examples"),
        ("mimeType", .str "text/prolog")],
       [("uri", .str "prolog://examples/logic-puzzles"),
        ("name", .str "Logic Puzzles"),
        ("description", .str "Examples of logic puzzles solved with Prolog"),
        ("mimeType", .str "text/prolog")],
       [("uri", .str "prolog://examples/family-tree"),
        ("name", .str "Family Tree Example"),
        ("description", .str "Family relationships modeling in Prolog"),
        ("mimeType", .str "text/prolog")]]) }

/-- `Server.getResourceContent`: suffix-matched lookup of the static
documents. -/
def getResourceContent (uri : String) : Except String String :=
  if hasSuffix uri "basic" then .ok getBasicPrologExamples
  else if hasSuffix uri "logic-puzzles" then .ok getLogicPuzzleExamples
  else if hasSuffix uri "family-tree" then .ok getFamilyTreeExample
  else .error ("unknown resource URI: " ++ uri)

/-- `Server.handleResourcesRead`: params must be an object with a string
`uri`; an unknown URI is a `Resource not found` error response. -/
def Server.handleResourcesRead (_s : Server) (request : MCPRequest) : MCPResponse :=
  match request.Params with
  | .obj params =>
    (match getStringArg params "uri" with
     | none =>
         { JSONRPC := "2.0", ID := request.ID,
           Error := some ⟨-32602, "Invalid params", "Missing or invalid \x27uri\x27 field"⟩ }
     | some uri =>
       match getResourceContent uri with
       | .error msg =>
           { JSONRPC := "2.0", ID := request.ID,
             Error := some ⟨-32603, "Resource not found", msg⟩ }
       | .ok content =>
           { JSONRPC := "2.0", ID := request.ID,
             Result := some (.resourceRead
               [[("uri", .str uri),
                 ("mimeType", .str "text/prolog"),
                 ("text", .str content)]]) })
  | _ =>
      { JSONRPC := "2.0", ID := request.ID,
        Error := some ⟨-32602, "Invalid params", "Expected object with \x27uri\x27"⟩ }

/-- `Server.handleRequest`: routes the five supported methods; any other
method is a `Method not found` error response carrying the request id. -/
def Server.handleRequest (s : Server) (request : MCPRequest) (envs : Nat → ExecEnv) :
    MCPResponse × Server :=
  match request.Method with
  | "initialize" => (s.handleInitializeRequest request, s)
  | "tools/list" => (s.handleToolsList request, s)
  | "tools/call" => s.handleToolsCall request envs
  | "resources/list" => (s.handleResourcesList request, s)
  | "resources/read" => (s.handleResourcesRead request, s)
  | _ =>
      ({ JSONRPC := "2.0", ID := request.ID,
         Error := some ⟨-32601, "Method not found", "Unknown method: " ++ request.Method⟩ }, s)

/-- A fresh open engine, exactly as `NewEngine` builds it. -/
def engine0 : Engine := ⟨[], false, []⟩

/-- An engine whose closed flag is set (the state after `Close`). -/
def closedEngine : Engine := ⟨[], true, []⟩

/-- A concrete invocation environment used by witnesses. -/
def env0 : ExecEnv := ⟨"/tmp/logic_mcp_1_query.pl", "1ms", .runOk "SUCCESS: true\n"⟩

/-- A concrete invocation-environment stream used by witnesses. -/
def envs0 : Nat → ExecEnv := fun _ => env0

theorem Engine.close_sets_closed (e : Engine) : (e.Close).2.closed = true := by
  unfold Engine.Close
  split
  · assumption
  · rfl

theorem Engine.query_closed (e : Engine) (h : e.closed = true) (q : String) (env : ExecEnv) :
    e.Query q env = (.error "engine is closed", e) := by
  unfold Engine.Query
  simp [h]

theorem Engine.loadFacts_closed (e : Engine) (h : e.closed = true) (f : String) :
    e.LoadFacts f = (.error "engine is closed", e) := by
  unfold Engine.LoadFacts
  simp [h]

theorem Engine.clear_closed (e : Engine) (h : e.closed = true) :
    e.ClearKnowledgeBase = (.error "engine is closed", e) := by
  unfold Engine.ClearKnowledgeBase
  simp [h]

theorem Engine.close_closed (e : Engine) (h : e.closed = true) :
    e.Close = (.ok (), e) := by
  unfold Engine.Close
  simp [h]

/-- C1: once `Close` has returned (successfully), every subsequent `Query`,
`LoadFacts` and `ClearKnowledgeBase` on the engine fails with the
engine-closed error, returning no result and leaving the state unchanged,
and a second `Close` succeeds and changes nothing. -/
theorem Engine.close_then_ops_fail (e : Engine) (q f : String) (env : ExecEnv) :
    (e.Close).1 = .ok () ∧
    (e.Close).2.Query q env = (.error "engine is closed", (e.Close).2) ∧
    (e.Close).2.LoadFacts f = (.error "engine is closed", (e.Close).2) ∧
    (e.Close).2.ClearKnowledgeBase = (.error "engine is closed", (e.Close).2) ∧
    (e.Close).2.Close = (.ok (), (e.Close).2) := by
  have hc := Engine.close_sets_closed e
  refine ⟨?_, Engine.query_closed _ hc q env, Engine.loadFacts_closed _ hc f,
    Engine.clear_closed _ hc, Engine.close_closed _ hc⟩
  unfold Engine.Close
  split <;> rfl

/-- C9 (counterexample): on a closed engine, `ValidateQuery` does not fail
with an engine-closed error — the Go method never reads the `closed` flag,
so a valid query still validates successfully. -/
theorem validateQuery_closed_engine_counterexample :
    closedEngine.closed = true ∧ closedEngine.ValidateQuery "true." = .ok () :=
  ⟨rfl, rfl⟩

/-- C9 (amended): `ValidateQuery` ignores the engine state entirely — it
returns the same result on any two engines (closed or open) and never
produces the engine-closed error. -/
theorem Engine.validateQuery_ignores_closed (e e' : Engine) (q : String) :
    e.ValidateQuery q = e'.ValidateQuery q ∧
    e.ValidateQuery q ≠ .error "engine is closed" := by
  refine ⟨rfl, ?_⟩
  unfold Engine.ValidateQuery
  dsimp only
  split
  · intro h
    injection h with h
    exact absurd h (by decide)
  split
  · intro h
    injection h with h
    exact absurd h (by decide)
  · split
    · intro h
      injection h with h
      have hl := congrArg String.length h
      rw [String.length_append] at hl
      have h24 : ("unbalanced parentheses: ").length = 24 := rfl
      have h16 : ("engine is closed").length = 16 := rfl
      omega
    · split
      · intro h
        injection h with h
        have hl := congrArg String.length h
        rw [String.length_append] at hl
        have h21 : ("unbalanced brackets: ").length = 21 := rfl
        have h16 : ("engine is closed").length = 16 := rfl
        omega
      · intro h
        injection h

/-- C3: classification of one external solver invocation by
`executeQueryBatch`: an abnormal completion yields a non-error outcome with
`Success=false` and the invocation error in `Error` (output retained); a
normal completion yields a non-error outcome whose `Success` is exactly
"the combined output contains `SUCCESS: true`", with the raw output
retained verbatim; a normal completion with no marker is still a
`Success=false` outcome, not an error; only a temp-file write failure is a
Go error (which `Query` in turn converts into a `Success=false` outcome). -/
theorem Engine.executeQueryBatch_classification (e : Engine)
    (q n t out msg : String) :
    (e.executeQueryBatch q ⟨n, t, .runError out msg⟩).1 =
        .ok { Success := false, Output := out, Error := "execution failed: " ++ msg } ∧
    (e.executeQueryBatch q ⟨n, t, .runOk out⟩).1 =
        .ok { Success := containsSubstr out "SUCCESS: true", Output := out } ∧
    (containsSubstr out "SUCCESS: true" = false →
        (e.executeQueryBatch q ⟨n, t, .runOk out⟩).1 =
          .ok { Success := false, Output := out }) ∧
    (e.executeQueryBatch q ⟨n, t, .writeFileError msg⟩).1 =
        .error ("failed to write query file: " ++ msg) := by
  refine ⟨rfl, rfl, ?_, rfl⟩
  intro h
  simp [Engine.executeQueryBatch, Engine.createTempFile, h]

/-- C3 witness: a normal completion whose output carries no canonical
marker is classified as a failed, non-crashing outcome. -/
theorem executeQueryBatch_classification_witness :
    containsSubstr "weird output" "SUCCESS: true" = false ∧
    (engine0.executeQueryBatch "true." ⟨"f.pl", "1ms", .runOk "weird output"⟩).1 =
      .ok { Success := false, Output := "weird output" } :=
  ⟨by decide,
   (Engine.executeQueryBatch_classification engine0 "true." "f.pl" "1ms"
      "weird output" "m").2.2.1 (by decide)⟩

theorem Engine.query_open_ok (e : Engine) (hopen : e.closed = false)
    (q : String) (env : ExecEnv) : ∃ r, (e.Query q env).1 = .ok r := by
  unfold Engine.Query
  simp only [hopen, Bool.false_eq_true, if_false]
  split
  · exact ⟨_, rfl⟩
  · split
    · exact ⟨_, rfl⟩
    · exact ⟨_, rfl⟩

/-- C5: error discipline of `Query` — input trimming to empty is a normal
`Success=false` outcome (not an error); on an open engine `Query` always
returns an outcome, never a hard error (unproven goals and failed solver
invocations are returned as data); the only hard error is the engine-closed
one, raised exactly when the engine is closed. -/
theorem Engine.query_error_discipline (e : Engine) (q : String) (env : ExecEnv) :
    (e.closed = false → trimSpace q = "" →
        (e.Query q env).1 =
          .ok { Success := false, Error := "Empty query provided",
                ExecutionTime := env.elapsed }) ∧
    (e.closed = false → ∃ r, (e.Query q env).1 = .ok r) ∧
    (e.closed = true → e.Query q env = (.error "engine is closed", e)) ∧
    (∀ msg, (e.Query q env).1 = .error msg →
        e.closed = true ∧ msg = "engine is closed") := by
  refine ⟨?_, fun h => Engine.query_open_ok e h q env,
    fun h => Engine.query_closed e h q env, ?_⟩
  · intro hopen hempty
    unfold Engine.Query
    simp [hopen, hempty]
  · intro msg h
    by_cases hc : e.closed
    · rw [Engine.query_closed e hc q env] at h
      exact ⟨hc, (Except.error.inj h).symm⟩
    · rw [Bool.not_eq_true] at hc
      obtain ⟨r, hr⟩ := Engine.query_open_ok e hc q env
      rw [hr] at h
      exact absurd h (by simp)

/-- C5 witness: on a fresh open engine, a blank query yields the non-error
empty-input outcome, a closed engine yields the hard error. -/
theorem query_error_discipline_witness :
    engine0.closed = false ∧
    trimSpace "  " = "" ∧
    (engine0.Query "  " env0).1 =
      .ok { Success := false, Error := "Empty query provided", ExecutionTime := "1ms" } ∧
    closedEngine.Query "true." env0 = (.error "engine is closed", closedEngine) :=
  ⟨rfl, by decide,
   (Engine.query_error_discipline engine0 "  " env0).1 rfl (by decide),
   (Engine.query_error_discipline closedEngine "true." env0).2.2.1 rfl⟩

/-- Spec-side terminator normalization of one statement line: append the
clause terminator when absent, leave the line unchanged when present. -/
def specNormalizeLine (line : String) : String :=
  if hasSuffix line "." then line else line ++ "."

/-- Spec-side description of one `LoadFacts` call: the non-blank,
non-comment lines of the text, trimmed, in original order, each
terminator-normalized. -/
def specFactLines (text : String) : List String :=
  (((splitLines text).map trimSpace).filter
      (fun l => l != "" && !(strStartsWith l "%"))).map specNormalizeLine

theorem foldl_loadFactsStep (lines : List String) : ∀ acc : List String,
    lines.foldl loadFactsStep acc =
      acc ++ ((lines.map trimSpace).filter
        (fun l => l != "" && !(strStartsWith l "%"))).map specNormalizeLine := by
  induction lines with
  | nil => intro acc; simp
  | cons l rest ih =>
    intro acc
    simp only [List.foldl_cons, List.map_cons, List.filter_cons]
    rw [ih]
    unfold loadFactsStep
    by_cases h : (trimSpace l != "" && !(strStartsWith (trimSpace l) "%")) = true
    · have hn : (if hasSuffix (trimSpace l) "." = false then trimSpace l ++ "." else trimSpace l)
          = specNormalizeLine (trimSpace l) := by
        unfold specNormalizeLine
        cases hs : hasSuffix (trimSpace l) "." <;> simp [hs]
      simp [h, hn]
    · simp [h]

theorem hasSuffix_append (s t : String) : hasSuffix (s ++ t) t = true := by
  unfold hasSuffix
  apply decide_eq_true
  rw [String.data_append]
  exact List.suffix_append s.data t.data

/-- C2: on an open engine with an empty knowledge base, `LoadFacts F`
always succeeds (malformed Prolog included), and the snapshot afterwards is
exactly the non-blank, non-comment lines of `F` (each compared after
whitespace trimming, which is the code's notion of a line's content), in
original order, each with the clause terminator appended when absent and
left unchanged when present; the normalization is idempotent. -/
theorem Engine.loadFacts_snapshot (e : Engine) (hopen : e.closed = false)
    (hempty : e.facts = []) (F : String) :
    (e.LoadFacts F).1 = .ok () ∧
    ((e.LoadFacts F).2).GetLoadedFacts = specFactLines F ∧
    (∀ l, specNormalizeLine (specNormalizeLine l) = specNormalizeLine l) := by
  refine ⟨?_, ?_, ?_⟩
  · unfold Engine.LoadFacts
    simp [hopen]
  · unfold Engine.LoadFacts Engine.GetLoadedFacts
    simp only [hopen, Bool.false_eq_true, if_false]
    rw [foldl_loadFactsStep, hempty]
    simp [specFactLines]
  · intro l
    unfold specNormalizeLine
    cases hs : hasSuffix l "." <;> simp [hs, hasSuffix_append]

/-- C2 witness: loading a text with a comment line, a blank line, an
unterminated fact and an already-terminated, padded rule. -/
theorem loadFacts_snapshot_witness :
    engine0.closed = false ∧ engine0.facts = [] ∧
    (engine0.LoadFacts "animal(cat)\n% a comment\n\n  mammal(X) :- animal(X).  ").1 = .ok () ∧
    ((engine0.LoadFacts "animal(cat)\n% a comment\n\n  mammal(X) :- animal(X).  ").2).GetLoadedFacts
      = ["animal(cat).", "mammal(X) :- animal(X)."] :=
  ⟨rfl, rfl,
   (Engine.loadFacts_snapshot engine0 rfl rfl
      "animal(cat)\n% a comment\n\n  mammal(X) :- animal(X).  ").1,
   ((Engine.loadFacts_snapshot engine0 rfl rfl
      "animal(cat)\n% a comment\n\n  mammal(X) :- animal(X).  ").2.1).trans (by decide)⟩

theorem Engine.executeQueryBatch_facts (e : Engine) (q : String) (env : ExecEnv) :
    ((e.executeQueryBatch q env).2).facts = e.facts := by
  rcases env with ⟨n, t, ev⟩
  cases ev <;> rfl

theorem Engine.query_facts (e : Engine) (q : String) (env : ExecEnv) :
    ((e.Query q env).2).facts = e.facts := by
  unfold Engine.Query
  split
  · rfl
  · split
    · rfl
    · dsimp only
      split <;> rename_i heq
      all_goals
        have h2 := congrArg (fun p => p.2.facts) heq
        dsimp only at h2
        rw [Engine.executeQueryBatch_facts] at h2
        exact h2.symm

/-- C6: a query never mutates the knowledge base — the snapshot after any
`Query` call (hard error, empty input, failed or successful invocation)
equals the snapshot before it; `LoadFacts` appends exactly its normalized
statement lines; `ClearKnowledgeBase` empties the store. -/
theorem Engine.kb_mutation_discipline (e : Engine) (q f : String) (env : ExecEnv) :
    ((e.Query q env).2).GetLoadedFacts = e.GetLoadedFacts ∧
    (e.closed = false →
      ((e.LoadFacts f).2).GetLoadedFacts = e.GetLoadedFacts ++ specFactLines f) ∧
    (e.closed = false → ((e.ClearKnowledgeBase).2).GetLoadedFacts = []) := by
  refine ⟨Engine.query_facts e q env, ?_, ?_⟩
  · intro hopen
    unfold Engine.LoadFacts Engine.GetLoadedFacts
    simp only [hopen, Bool.false_eq_true, if_false]
    rw [foldl_loadFactsStep]
    simp [specFactLines]
  · intro hopen
    unfold Engine.ClearKnowledgeBase Engine.GetLoadedFacts
    simp [hopen]

/-- C6 witness: on an engine holding one statement, a query leaves the
snapshot unchanged, a load appends, a clear empties. -/
theorem kb_mutation_discipline_witness :
    ((⟨[], false, ["a."]⟩ : Engine).Query "b." env0).2.GetLoadedFacts = ["a."] ∧
    ((⟨[], false, ["a."]⟩ : Engine).LoadFacts "b").2.GetLoadedFacts = ["a.", "b."] ∧
    ((⟨[], false, ["a."]⟩ : Engine).ClearKnowledgeBase).2.GetLoadedFacts = [] :=
  ⟨(Engine.kb_mutation_discipline ⟨[], false, ["a."]⟩ "b." "b" env0).1.trans (by decide),
   ((Engine.kb_mutation_discipline ⟨[], false, ["a."]⟩ "b." "b" env0).2.1 rfl).trans (by decide),
   (Engine.kb_mutation_discipline ⟨[], false, ["a."]⟩ "b." "b" env0).2.2 rfl⟩

/-- `.ok`-ness of an `Except` value as a boolean. -/
def exceptOk {ε α : Type} : Except ε α → Bool
  | .ok _ => true
  | .error _ => false

/-- Spec-side contribution of one character to the nesting count. -/
def balanceDelta (openC closeC ch : Char) : Int :=
  if ch == openC then 1 else if ch == closeC then -1 else 0

/-- Spec-side balance check (validator rules 3 and 4 as the spec words
them): the nesting count returns to zero and never goes negative at any
prefix. -/
def specBalancedOk (s : String) (openC closeC : Char) : Bool :=
  (s.data.foldl (fun a ch => a + balanceDelta openC closeC ch) 0 == 0) &&
  ((s.data.scanl (fun a ch => a + balanceDelta openC closeC ch) 0).all fun p => decide (0 ≤ p))

theorem scanl_all_head_false {f : Int → Char → Int} {b : Int} (hb : ¬ 0 ≤ b)
    (l : List Char) : ((List.scanl f b l).all fun p => decide (0 ≤ p)) = false := by
  cases l <;> simp [List.scanl_nil, List.scanl_cons, hb]

theorem validateBalancedAux_ok (openC closeC : Char) (l : List Char) : ∀ k : Int, 0 ≤ k →
    exceptOk (validateBalancedAux openC closeC l k) =
      ((l.foldl (fun a ch => a + balanceDelta openC closeC ch) k == 0) &&
       ((l.scanl (fun a ch => a + balanceDelta openC closeC ch) k).all fun p => decide (0 ≤ p))) := by
  induction l with
  | nil =>
    intro k hk
    unfold validateBalancedAux
    by_cases h : k = 0
    · subst h
      simp [exceptOk]
    · simp [h, exceptOk, hk]
  | cons c rest ih =>
    intro k hk
    unfold validateBalancedAux
    by_cases ho : (c == openC) = true
    · rw [if_pos ho, ih (k + 1) (by omega)]
      have hd : balanceDelta openC closeC c = 1 := by
        unfold balanceDelta
        rw [if_pos ho]
      simp only [List.foldl_cons, List.scanl_cons, List.all_cons, hd]
      simp [hk]
    · rw [if_neg (by simp [ho])]
      by_cases hc : (c == closeC) = true
      · rw [if_pos hc]
        by_cases hneg : k - 1 < 0
        · rw [if_pos hneg]
          have hb : ¬ (0 : Int) ≤ k + balanceDelta openC closeC c := by
            unfold balanceDelta
            rw [if_neg (by simp [ho]), if_pos hc]
            omega
          simp [exceptOk, List.scanl_cons, scanl_all_head_false hb]
        · rw [if_neg hneg, ih (k - 1) (by omega)]
          have hd : balanceDelta openC closeC c = -1 := by
            unfold balanceDelta
            rw [if_neg (by simp [ho]), if_pos hc]
          simp only [List.foldl_cons, List.scanl_cons, List.all_cons, hd]
          have : k + -1 = k - 1 := by omega
          rw [this]
          simp [hk]
      · rw [if_neg (by simp [hc]), ih k hk]
        have hd : balanceDelta openC closeC c = 0 := by
          unfold balanceDelta
          rw [if_neg (by simp [ho]), if_neg (by simp [hc])]
        simp [List.foldl_cons, List.scanl_cons, List.all_cons, hd, hk]

theorem Engine.validateBalanced_ok (e : Engine) (s : String) (openC closeC : Char) :
    exceptOk (e.validateBalanced s openC closeC) = specBalancedOk s openC closeC := by
  unfold Engine.validateBalanced specBalancedOk
  exact validateBalancedAux_ok openC closeC s.data 0 (le_refl 0)

/-- C4: `ValidateQuery` applies its rules in order with the first failure
winning — empty (after trimming) input errors first; then a missing
trailing terminator; then unbalanced parentheses (nesting going negative or
not returning to zero, stated through the spec-side `specBalancedOk`); then
unbalanced brackets; otherwise validation succeeds — together with the four
concrete spec examples. -/
theorem Engine.validateQuery_rules (e : Engine) (q : String) :
    (trimSpace q = "" → e.ValidateQuery q = .error "empty query") ∧
    (trimSpace q ≠ "" → hasSuffix (trimSpace q) "." = false →
        e.ValidateQuery q = .error "query must end with a period") ∧
    (trimSpace q ≠ "" → hasSuffix (trimSpace q) "." = true →
        specBalancedOk (trimSpace q) '(' ')' = false →
        ∃ m, e.ValidateQuery q = .error ("unbalanced parentheses: " ++ m)) ∧
    (trimSpace q ≠ "" → hasSuffix (trimSpace q) "." = true →
        specBalancedOk (trimSpace q) '(' ')' = true →
        specBalancedOk (trimSpace q) '[' ']' = false →
        ∃ m, e.ValidateQuery q = .error ("unbalanced brackets: " ++ m)) ∧
    (trimSpace q ≠ "" → hasSuffix (trimSpace q) "." = true →
        specBalancedOk (trimSpace q) '(' ')' = true →
        specBalancedOk (trimSpace q) '[' ']' = true →
        e.ValidateQuery q = .ok ()) ∧
    (e.ValidateQuery "member(X, [1,2,3])." = .ok ()) ∧
    (e.ValidateQuery "member(X, [1,2,3])" = .error "query must end with a period") ∧
    (e.ValidateQuery "" = .error "empty query") ∧
    (e.ValidateQuery "foo(1,2." = .error "unbalanced parentheses: unmatched opening (") := by
  refine ⟨?_, ?_, ?_, ?_, ?_, rfl, rfl, rfl, rfl⟩
  · intro h1
    unfold Engine.ValidateQuery
    simp [h1]
  · intro h1 h2
    unfold Engine.ValidateQuery
    simp [h1, h2]
  · intro h1 h2 h3
    unfold Engine.ValidateQuery
    dsimp only
    rw [if_neg (by simp [h1]), if_neg (by simp [h2])]
    have hv := Engine.validateBalanced_ok e (trimSpace q) '(' ')'
    rw [h3] at hv
    cases hp : e.validateBalanced (trimSpace q) '(' ')' with
    | error m => exact ⟨m, rfl⟩
    | ok u => rw [hp] at hv; exact absurd hv (by simp [exceptOk])
  · intro h1 h2 h3 h4
    unfold Engine.ValidateQuery
    dsimp only
    rw [if_neg (by simp [h1]), if_neg (by simp [h2])]
    have hvp := Engine.validateBalanced_ok e (trimSpace q) '(' ')'
    rw [h3] at hvp
    cases hp : e.validateBalanced (trimSpace q) '(' ')' with
    | error m => rw [hp] at hvp; exact absurd hvp (by simp [exceptOk])
    | ok u =>
      have hvb := Engine.validateBalanced_ok e (trimSpace q) '[' ']'
      rw [h4] at hvb
      cases hb : e.validateBalanced (trimSpace q) '[' ']' with
      | error m => exact ⟨m, rfl⟩
      | ok u => rw [hb] at hvb; exact absurd hvb (by simp [exceptOk])
  · intro h1 h2 h3 h4
    unfold Engine.ValidateQuery
    dsimp only
    rw [if_neg (by simp [h1]), if_neg (by simp [h2])]
    have hvp := Engine.validateBalanced_ok e (trimSpace q) '(' ')'
    rw [h3] at hvp
    cases hp : e.validateBalanced (trimSpace q) '(' ')' with
    | error m => rw [hp] at hvp; exact absurd hvp (by simp [exceptOk])
    | ok u =>
      have hvb := Engine.validateBalanced_ok e (trimSpace q) '[' ']'
      rw [h4] at hvb
      cases hb : e.validateBalanced (trimSpace q) '[' ']' with
      | error m => rw [hb] at hvb; exact absurd hvb (by simp [exceptOk])
      | ok u => rfl

/-- C4 witness: one concrete input for each of the five ordered rules. -/
theorem validateQuery_rules_witness :
    engine0.ValidateQuery "  " = .error "empty query" ∧
    engine0.ValidateQuery "f(x)" = .error "query must end with a period" ∧
    (∃ m, engine0.ValidateQuery "f((x)." = .error ("unbalanced parentheses: " ++ m)) ∧
    (∃ m, engine0.ValidateQuery "f([1,2)." = .error ("unbalanced brackets: " ++ m)) ∧
    engine0.ValidateQuery "f([1,2])." = .ok () :=
  ⟨(Engine.validateQuery_rules engine0 "  ").1 (by decide),
   (Engine.validateQuery_rules engine0 "f(x)").2.1 (by decide) (by decide),
   (Engine.validateQuery_rules engine0 "f((x).").2.2.1 (by decide) (by decide) (by decide),
   (Engine.validateQuery_rules engine0 "f([1,2).").2.2.2.1
      (by decide) (by decide) (by decide) (by decide),
   (Engine.validateQuery_rules engine0 "f([1,2]).").2.2.2.2.1
      (by decide) (by decide) (by decide) (by decide)⟩

/-- C8: dispatching an unregistered tool name is a dispatch-level error
carrying no tool result, while dispatching the registered `prolog_query`
tool with a missing-or-non-string `query` argument succeeds at the dispatch
level and returns an error-flagged `ToolResult` with a human-readable
explanation. -/
theorem LogicTools.callTool_dispatch_errors (e : Engine) (name : String)
    (args : ArgMap) (envs : Nat → ExecEnv) :
    (name ∉ (["prolog_query", "prolog_load_facts", "prolog_validate_syntax",
              "prolog_clear_kb", "prolog_solve_problem",
              "prolog_explain_solution"] : List String) →
        LogicTools.CallTool e name args envs = (.error ("unknown tool: " ++ name), e)) ∧
    (getStringArg args "query" = none →
        (LogicTools.CallTool e "prolog_query" args envs).1 =
          .ok { Content := [textContent "Error: \x27query\x27 parameter must be a string"],
                IsError := true }) := by
  constructor
  · intro h
    unfold LogicTools.CallTool
    split <;> simp_all
  · intro h
    show (LogicTools.handleQuery e args (envs 0)).1 = _
    unfold LogicTools.handleQuery
    rw [h]

/-- C8 witness: the unregistered name `no_such_tool` and a `prolog_query`
call with an empty argument map. -/
theorem callTool_dispatch_errors_witness :
    ("no_such_tool" ∉ (["prolog_query", "prolog_load_facts", "prolog_validate_syntax",
        "prolog_clear_kb", "prolog_solve_problem",
        "prolog_explain_solution"] : List String)) ∧
    LogicTools.CallTool engine0 "no_such_tool" [] envs0 =
      (.error ("unknown tool: " ++ "no_such_tool"), engine0) ∧
    getStringArg [] "query" = none ∧
    (LogicTools.CallTool engine0 "prolog_query" [] envs0).1 =
      .ok { Content := [textContent "Error: \x27query\x27 parameter must be a string"],
            IsError := true } :=
  ⟨by decide,
   (LogicTools.callTool_dispatch_errors engine0 "no_such_tool" [] envs0).1 (by decide),
   rfl,
   (LogicTools.callTool_dispatch_errors engine0 "prolog_query" [] envs0).2 rfl⟩

/-- A server over a fresh engine, used by witnesses. -/
def server0 : Server := ⟨engine0⟩

theorem Server.handleToolsCall_inv (s : Server) (req : MCPRequest) (envs : Nat → ExecEnv) :
    ((s.handleToolsCall req envs).1.ID = req.ID) ∧
    ((s.handleToolsCall req envs).1.Result.isSome =
      (s.handleToolsCall req envs).1.Error.isNone) := by
  unfold Server.handleToolsCall
  constructor <;> (repeat' (first | split | dsimp only)) <;> rfl

theorem Server.handleResourcesRead_inv (s : Server) (req : MCPRequest) :
    ((s.handleResourcesRead req).ID = req.ID) ∧
    ((s.handleResourcesRead req).Result.isSome =
      (s.handleResourcesRead req).Error.isNone) := by
  unfold Server.handleResourcesRead
  constructor <;> (repeat' (first | split | dsimp only)) <;> rfl

/-- C7: every handled protocol request produces exactly one response (the
handler is a function into one `MCPResponse`), that response carries the
request's id, and it carries exactly one of a result or an error object;
a method outside the five supported ones yields the `Method not found`
error response. -/
theorem Server.handleRequest_protocol_invariant (s : Server) (req : MCPRequest)
    (envs : Nat → ExecEnv) :
    ((s.handleRequest req envs).1.ID = req.ID) ∧
    ((s.handleRequest req envs).1.Result.isSome =
      (s.handleRequest req envs).1.Error.isNone) ∧
    (req.Method ∉ (["initialize", "tools/list", "tools/call",
        "resources/list", "resources/read"] : List String) →
      (s.handleRequest req envs).1.Result = none ∧
      (s.handleRequest req envs).1.Error =
        some ⟨-32601, "Method not found", "Unknown method: " ++ req.Method⟩) := by
  unfold Server.handleRequest
  refine ⟨?_, ?_, ?_⟩
  · split <;> first
      | rfl
      | exact (Server.handleToolsCall_inv s req envs).1
      | exact (Server.handleResourcesRead_inv s req).1
  · split <;> first
      | rfl
      | exact (Server.handleToolsCall_inv s req envs).2
      | exact (Server.handleResourcesRead_inv s req).2
  · intro h
    split <;> first
      | (rename_i heq; exact absurd (by rw [heq]; decide) h)
      | exact ⟨rfl, rfl⟩

/-- C7 witness: an unsupported method gets the `MethodNotFound` error
response. -/
theorem handleRequest_protocol_invariant_witness :
    ("bogus/method" ∉ (["initialize", "tools/list", "tools/call",
        "resources/list", "resources/read"] : List String)) ∧
    (server0.handleRequest ⟨"2.0", .num 7, "bogus/method", .null⟩ envs0).1.Result = none ∧
    (server0.handleRequest ⟨"2.0", .num 7, "bogus/method", .null⟩ envs0).1.Error =
      some ⟨-32601, "Method not found", "Unknown method: " ++ "bogus/method"⟩ :=
  ⟨by decide,
   ((Server.handleRequest_protocol_invariant server0
      ⟨"2.0", .num 7, "bogus/method", .null⟩ envs0).2.2 (by decide)).1,
   ((Server.handleRequest_protocol_invariant server0
      ⟨"2.0", .num 7, "bogus/method", .null⟩ envs0).2.2 (by decide)).2⟩

/-- C10: a `tools/call` request whose params carry no `arguments` object
(field absent, or present with a non-object value) is not rejected with a
protocol-level `InvalidParams` error: it is handled exactly like a call
with an explicit empty `arguments` object, so the named tool is dispatched
with an empty argument map; for `prolog_query` in particular the response
is a successful dispatch carrying an error-flagged tool result. -/
theorem Server.toolsCall_missing_arguments (s : Server) (id : JSONValue)
    (params : ArgMap) (envs : Nat → ExecEnv) :
    (∀ nm, getStringArg params "name" = some nm →
      (∀ o, lookupArg params "arguments" ≠ some (JSONValue.obj o)) →
      s.handleRequest ⟨"2.0", id, "tools/call", .obj params⟩ envs =
        s.handleRequest ⟨"2.0", id, "tools/call",
          .obj [("name", .str nm), ("arguments", .obj [])]⟩ envs) ∧
    (getStringArg params "name" = some "prolog_query" →
      (∀ o, lookupArg params "arguments" ≠ some (JSONValue.obj o)) →
      (s.handleRequest ⟨"2.0", id, "tools/call", .obj params⟩ envs).1.Error = none ∧
      (s.handleRequest ⟨"2.0", id, "tools/call", .obj params⟩ envs).1.Result =
        some (.toolCall
          { Content := [textContent "Error: \x27query\x27 parameter must be a string"],
            IsError := true })) := by
  constructor
  · intro nm hnm hno
    show s.handleToolsCall ⟨"2.0", id, "tools/call", .obj params⟩ envs = _
    unfold Server.handleToolsCall
    dsimp only
    rw [hnm]
    cases hl : lookupArg params "arguments" with
    | none => rfl
    | some v =>
      cases v with
      | obj o => exact absurd hl (hno o)
      | null => rfl
      | bool b => rfl
      | num n => rfl
      | str s2 => rfl
      | arr l => rfl
  · intro hnm hno
    have h1 :
        s.handleRequest ⟨"2.0", id, "tools/call", .obj params⟩ envs =
          s.handleRequest ⟨"2.0", id, "tools/call",
            .obj [("name", .str "prolog_query"), ("arguments", .obj [])]⟩ envs := by
      show s.handleToolsCall ⟨"2.0", id, "tools/call", .obj params⟩ envs = _
      unfold Server.handleToolsCall
      dsimp only
      rw [hnm]
      cases hl : lookupArg params "arguments" with
      | none => rfl
      | some v =>
        cases v with
        | obj o => exact absurd hl (hno o)
        | null => rfl
        | bool b => rfl
        | num n => rfl
        | str s2 => rfl
        | arr l => rfl
    rw [h1]
    exact ⟨rfl, rfl⟩

/-- C10 witness: a `tools/call` of `prolog_query` with the `arguments`
field absent dispatches with the empty map and returns a successful
response carrying an error-flagged tool result. -/
theorem toolsCall_missing_arguments_witness :
    getStringArg [("name", JSONValue.str "prolog_query")] "name" = some "prolog_query" ∧
    lookupArg [("name", JSONValue.str "prolog_query")] "arguments" = none ∧
    (server0.handleRequest
        ⟨"2.0", .num 1, "tools/call", .obj [("name", .str "prolog_query")]⟩ envs0).1.Error
      = none ∧
    (server0.handleRequest
        ⟨"2.0", .num 1, "tools/call", .obj [("name", .str "prolog_query")]⟩ envs0).1.Result
      = some (.toolCall
          { Content := [textContent "Error: \x27query\x27 parameter must be a string"],
            IsError := true }) :=
  ⟨rfl, rfl,
   ((Server.toolsCall_missing_arguments server0 (.num 1)
      [("name", .str "prolog_query")] envs0).2 rfl (fun _o h => nomatch h)).1,
   ((Server.toolsCall_missing_arguments server0 (.num 1)
      [("name", .str "prolog_query")] envs0).2 rfl (fun _o h => nomatch h)).2⟩
